import Mathlib

/-!
Verification of the frame-analysis engine of the boiler tracker
(`lib/analyze.py`).

Embedding conventions:
* A captured frame is represented by its dimensions together with its
  HSV view (`px`) and its grayscale view (`gray`).  The code converts the
  BGR buffer with `cv2.cvtColor` before every pixel access, and those
  colour-space conversions are opaque cv2 library primitives, so the
  embedding works directly with the converted views.
* `cv2.inRange` + `cv2.countNonZero` over a rectangular region become a
  row-by-row count of pixels whose HSV components lie within the
  inclusive bounds.  Numpy slicing `img[y1:y2, x1:x2]` clamps the bounds
  to the frame size, which the embedding reproduces with `min`.
* Frames delivered by a webcam are non-empty; on an empty (0-by-0)
  buffer `cv2.cvtColor` itself raises `cv2.error` before any ROI logic
  runs, so the embedding is read over non-empty frames.  The per-slice
  emptiness check of analyze.py lines 165-167 concerns an ROI that
  falls outside such a (non-empty) frame, and that is the only way the
  modelled empty-slice branch is exercised.
* Python floats are modelled as exact rationals (`ℚ`); every float that
  the code manipulates (`percentage / 100`, `NUMBER_OF_FRAMES / 4`,
  mean brightness) is exactly representable for the values that occur.
* Python ints in comparisons are modelled as `ℤ` where subtraction
  matters (the adjacency check), otherwise as `ℕ`.
* `cap.read()` is modelled by a function `cap : ℕ → Option Frame`
  giving the result of the k-th read of the capture device (`none` for
  a failed read).  `time.sleep`, `cv2.imwrite` and the annotation text
  drawn by `cv2.putText` are side effects without influence on pixel
  analysis; the sleeps and captures are recorded in an event trace, the
  error-image write is not modelled, and the annotated copy of a frame
  is the frame itself.
-/

set_option maxRecDepth 8000

/-- One pixel in HSV colour space. -/
structure HSV where
  h : ℕ
  s : ℕ
  v : ℕ
deriving DecidableEq

/-- A pixel rectangle `[x1, y1, x2, y2]` in source-frame coordinates. -/
structure ROI where
  x1 : ℕ
  y1 : ℕ
  x2 : ℕ
  y2 : ℕ
deriving DecidableEq

/-- A captured frame: dimensions plus its HSV and grayscale views. -/
structure Frame where
  rows : ℕ
  cols : ℕ
  px : ℕ → ℕ → HSV
  gray : ℕ → ℕ → ℕ

instance : Inhabited Frame := ⟨⟨0, 0, fun _ _ => ⟨0, 0, 0⟩, fun _ _ => 0⟩⟩

-- --- Configuration constants (analyze.py lines 17-69)

/-- Number of frames sampled per run (`NUMBER_OF_FRAMES = 30`). -/
def NUMBER_OF_FRAMES : ℕ := 30

/-- Delay between two sampled frames in seconds (`TIME_BETWEEN_FRAMES = 0.2`). -/
def TIME_BETWEEN_FRAMES : ℚ := 2 / 10

/-- ROI used to detect the general room light (`[425, 115, 460, 275]`). -/
def GENERAL_LIGHT_ROI : ROI := ⟨425, 115, 460, 275⟩

/-- Brightness threshold for the general light (`100`). -/
def GENERAL_LIGHT_BRIGHTNESS_THRESHOLD : ℕ := 100

/-- ROI used to detect whether the button is pressed (`[240, 165, 270, 190]`). -/
def IS_PRESSED_ROI : ROI := ⟨240, 165, 270, 190⟩

/-- Percentage of green pixels required for the pressed state (`25`). -/
def PRESSED_REQUIRED_PERCENTAGE_GREEN : ℕ := 25

/-- The two sub-ROIs of each of the four indicator LEDs (`LIGHT_ROIS`). -/
def LIGHT_ROIS : List (List ROI) :=
  [ [⟨110, 122, 128, 226⟩, ⟨128, 122, 164, 151⟩],
    [⟨183, 139, 221, 168⟩, ⟨207, 168, 230, 216⟩],
    [⟨221, 245, 236, 296⟩, ⟨174, 306, 237, 328⟩],
    [⟨113, 230, 142, 335⟩, ⟨142, 314, 173, 330⟩] ]

/-- Percentage of green pixels required for a light to count as on (`50`). -/
def LIGHT_REQUIRED_PERCENTAGE_GREEN : ℕ := 50

/-- Lower green bound for the PRESSED scenario (`[45, 50, 45]`). -/
def PRESSED_LOWER_GREEN : HSV := ⟨45, 50, 45⟩

/-- Upper green bound for the PRESSED scenario (`[95, 255, 255]`). -/
def PRESSED_UPPER_GREEN : HSV := ⟨95, 255, 255⟩

/-- Lower green bound for the light scenario (`[45, 40, 70]`). -/
def LIGHT_LOWER_GREEN : HSV := ⟨45, 40, 70⟩

/-- Upper green bound for the light scenario (`[95, 255, 255]`). -/
def LIGHT_UPPER_GREEN : HSV := ⟨95, 255, 255⟩

/-- Lower green bound for the dark scenario (`[45, 40, 30]`). -/
def DARK_LOWER_GREEN : HSV := ⟨45, 40, 30⟩

/-- Upper green bound for the dark scenario (`[95, 255, 255]`). -/
def DARK_UPPER_GREEN : HSV := ⟨95, 255, 255⟩

-- --- Data classes (analyze.py lines 74-105)

/-- The `light_value` stored with a frame: the detected integer count for a
successful frame, or the string marker `ERROR` for a failed one. -/
inductive LightValue where
  | err : LightValue
  | val : ℕ → LightValue
deriving DecidableEq

/-- Data for a single frame with its analysis results (`FrameData`). -/
structure FrameData where
  original_frame : Frame
  annotated_frame : Frame
  light_value : LightValue

/-- The current boiler status (`BoilerStatus`). -/
structure BoilerStatus where
  heating : Bool
  lights_on : ℕ
  general_light_on : Bool
  frames : List FrameData
  frequency_frames : List FrameData
  lower_green : HSV
  upper_green : HSV

-- --- Pixel-level primitives

/-- `cv2.inRange` for a single pixel: all three HSV channels within the
inclusive `[lower, upper]` bounds. -/
def inRangeHSV (p : HSV) (lower upper : HSV) : Bool :=
  decide (lower.h ≤ p.h) && decide (p.h ≤ upper.h) &&
  decide (lower.s ≤ p.s) && decide (p.s ≤ upper.s) &&
  decide (lower.v ≤ p.v) && decide (p.v ≤ upper.v)

/-- Number of in-range pixels of one row `y`, columns `x1 ≤ x < x2`. -/
def rowGreenCount (frame : Frame) (lower upper : HSV) (y x1 x2 : ℕ) : ℕ :=
  ((List.range' x1 (x2 - x1)).filter
    (fun x => inRangeHSV (frame.px y x) lower upper)).length

/-- `cv2.countNonZero(cv2.inRange(hsv_img[y1:y2, x1:x2], lower, upper))`:
the number of in-range pixels of the ROI, with numpy's clamping of the
slice bounds to the frame size. -/
def countGreen (frame : Frame) (lower upper : HSV) (r : ROI) : ℕ :=
  ((List.range' (min r.y1 frame.rows) (min r.y2 frame.rows - min r.y1 frame.rows)).map
    (fun y => rowGreenCount frame lower upper y (min r.x1 frame.cols) (min r.x2 frame.cols))).sum

/-- Pixel count of the numpy slice `img[y1:y2, x1:x2]` (zero when the
slice is empty because the ROI lies outside the frame). -/
def clampedSize (frame : Frame) (r : ROI) : ℕ :=
  (min r.y2 frame.rows - min r.y1 frame.rows) * (min r.x2 frame.cols - min r.x1 frame.cols)

/-- Unclamped pixel area `(x2 - x1) * (y2 - y1)` of an ROI
(`roi_size`, analyze.py line 160). -/
def roiSize (r : ROI) : ℕ :=
  (r.x2 - r.x1) * (r.y2 - r.y1)

/-- Mean brightness of the grayscale ROI, `cv2.mean(gray_img)[0]`
(an empty slice yields `0`). -/
def grayMean (frame : Frame) (r : ROI) : ℚ :=
  (((List.range' (min r.y1 frame.rows) (min r.y2 frame.rows - min r.y1 frame.rows)).map
      (fun y => ((List.range' (min r.x1 frame.cols) (min r.x2 frame.cols - min r.x1 frame.cols)).map
        (fun x => (frame.gray y x : ℚ))).sum)).sum) / (clampedSize frame r : ℚ)

-- --- Internal functions (analyze.py lines 109-186)

/-- `is_percentage_reached` (analyze.py lines 109-110):
`count > (total * (percentage / 100))`, with the float arithmetic
modelled exactly over `ℚ`. -/
def is_percentage_reached (total count : ℕ) (percentage : ℚ) : Bool :=
  decide ((count : ℚ) > (total : ℚ) * (percentage / 100))

/-- `determine_general_light` (analyze.py lines 113-125): mean brightness
of the general-light ROI above the threshold. -/
def determine_general_light (frame : Frame) : Bool :=
  decide (grayMean frame GENERAL_LIGHT_ROI > (GENERAL_LIGHT_BRIGHTNESS_THRESHOLD : ℚ))

/-- `determine_pressed_state` (analyze.py lines 127-142): at least the
required percentage of the pressed ROI is green.  `total_size` is the
unclamped area `(x2 - x1) * (y2 - y1)`. -/
def determine_pressed_state (frame : Frame) : Bool :=
  is_percentage_reached (roiSize IS_PRESSED_ROI)
    (countGreen frame PRESSED_LOWER_GREEN PRESSED_UPPER_GREEN IS_PRESSED_ROI)
    (PRESSED_REQUIRED_PERCENTAGE_GREEN : ℚ)

/-- The inner loop of `determine_number_of_lights_in_frame`
(analyze.py lines 154-174): accumulate total pixel area and green-pixel
count over the sub-ROIs of one light, aborting with `none` as soon as an
extracted slice is empty (which, for the non-empty frames a camera
delivers, happens exactly when the ROI lies outside the frame). -/
def roiStats (frame : Frame) (lower upper : HSV) : List ROI → Option (ℕ × ℕ)
  | [] => some (0, 0)
  | r :: rest =>
    if clampedSize frame r = 0 then none
    else
      match roiStats frame lower upper rest with
      | none => none
      | some (total_pixels, green_pixels) =>
        some (roiSize r + total_pixels, countGreen frame lower upper r + green_pixels)

/-- The outer loop of `determine_number_of_lights_in_frame`
(analyze.py lines 152-184): walk the lights in order, carrying
`light_index` and the running `lights_on` count; a light that is on
while `lights_on ≠ light_index` makes the frame invalid. -/
def countLights (frame : Frame) (lower upper : HSV) :
    List (List ROI) → ℕ → ℕ → Option ℕ
  | [], _, lights_on => some lights_on
  | light_rois :: rest, light_index, lights_on =>
    match roiStats frame lower upper light_rois with
    | none => none
    | some (total_pixels, green_pixels) =>
      if is_percentage_reached total_pixels green_pixels (LIGHT_REQUIRED_PERCENTAGE_GREEN : ℚ) then
        if lights_on ≠ light_index then none
        else countLights frame lower upper rest (light_index + 1) (light_index + 1)
      else countLights frame lower upper rest (light_index + 1) lights_on

/-- `determine_number_of_lights_in_frame` (analyze.py lines 144-186). -/
def determine_number_of_lights_in_frame (frame : Frame) (lower upper : HSV) : Option ℕ :=
  countLights frame lower upper LIGHT_ROIS 0 0

-- --- The sampling loop and its event trace (analyze.py lines 218-256)

/-- Observable side effects of one run of the sampling loop: the k-th
`cap.read()` call and the `time.sleep(TIME_BETWEEN_FRAMES)` call. -/
inductive Event where
  | capture : ℕ → Event
  | sleep : ℚ → Event
deriving DecidableEq

/-- The `FrameData` stored for one sampled frame (analyze.py lines
240-243 for a failed frame, 250-252 for a successful one); the textual
overlay of `cv2.putText` does not change the analysed pixels, so the
annotated copy is the frame itself. -/
def mkStoredFrame (frame : Frame) (result : Option ℕ) : FrameData :=
  match result with
  | none => ⟨frame, frame, LightValue.err⟩
  | some lights_on => ⟨frame, frame, LightValue.val lights_on⟩

/-- Accumulated state of the sampling loop: `determined_light_values`,
`failed_frames`, `stored_frames`, plus the trace of capture/sleep
events. -/
structure LoopOut where
  values : List ℕ
  failed : ℕ
  frames : List FrameData
  events : List Event

/-- The sampling loop of `analyze` (analyze.py lines 223-256), iterating
`remaining` more times starting at `frame_index`.  The k-th iteration
consumes read number `frame_index + 1` (read 0 was the initial frame).
A failed read aborts the whole run.  On a detector failure the `continue`
statement (line 244) skips the sleep at lines 254-256, so a sleep event
is recorded only after a successful, non-last iteration. -/
def runLoopAux (cap : ℕ → Option Frame) (lower upper : HSV) :
    ℕ → ℕ → Option LoopOut
  | _, 0 => some ⟨[], 0, [], []⟩
  | frame_index, remaining + 1 =>
    match cap (frame_index + 1) with
    | none => none
    | some frame =>
      match determine_number_of_lights_in_frame frame lower upper with
      | none =>
        match runLoopAux cap lower upper (frame_index + 1) remaining with
        | none => none
        | some out =>
          some ⟨out.values, out.failed + 1,
                mkStoredFrame frame none :: out.frames,
                Event.capture (frame_index + 1) :: out.events⟩
      | some lights_on =>
        match runLoopAux cap lower upper (frame_index + 1) remaining with
        | none => none
        | some out =>
          some ⟨lights_on :: out.values, out.failed,
                mkStoredFrame frame (some lights_on) :: out.frames,
                Event.capture (frame_index + 1) ::
                  ((if frame_index ≠ NUMBER_OF_FRAMES - 1
                    then [Event.sleep TIME_BETWEEN_FRAMES] else []) ++ out.events)⟩

/-- The full 30-iteration sampling loop. -/
def runLoop (cap : ℕ → Option Frame) (lower upper : HSV) : Option LoopOut :=
  runLoopAux cap lower upper 0 NUMBER_OF_FRAMES

-- --- Frequency analysis (analyze.py lines 263-297)

/-- One step of `collections.Counter`: increment the count of `v`,
keeping first-occurrence order of the distinct values. -/
def bump (v : ℕ) : List (ℕ × ℕ) → List (ℕ × ℕ)
  | [] => [(v, 1)]
  | (w, c) :: rest => if w = v then (w, c + 1) :: rest else (w, c) :: bump v rest

/-- `collections.Counter(values)` as an association list in
first-occurrence order (Counter iterates in insertion order). -/
def tally (values : List ℕ) : List (ℕ × ℕ) :=
  values.foldl (fun acc v => bump v acc) []

/-- Select the entry with the maximal count, earliest entry winning
ties, and return it together with the remaining entries in order.  This
is one selection step of `heapq.nlargest` as used by
`Counter.most_common`, whose tie-break keeps first-encountered order. -/
def pickTop : List (ℕ × ℕ) → Option ((ℕ × ℕ) × List (ℕ × ℕ))
  | [] => none
  | x :: xs =>
    match pickTop xs with
    | none => some (x, [])
    | some (m, rest) => if m.2 > x.2 then some (m, x :: rest) else some (x, xs)

/-- `Counter.most_common(k)`: the `k` most frequent `(value, count)`
pairs, most frequent first, ties in first-encountered order. -/
def most_common : ℕ → List (ℕ × ℕ) → List (ℕ × ℕ)
  | 0, _ => []
  | k + 1, items =>
    match pickTop items with
    | none => []
    | some (m, rest) => m :: most_common k rest

/-- The verdict of the frequency analysis before normalization
(analyze.py lines 263-293): `none` when the tally is empty or when the
top two values are blink-significant but not adjacent, otherwise
`some (heating, lights_on)`.  The adjacency test compares Python ints,
hence the casts to `ℤ`. -/
def resolveVerdict (values : List ℕ) : Option (Bool × ℕ) :=
  match most_common 2 (tally values) with
  | [] => none
  | [(value1, _)] => some (false, value1)
  | (value1, _) :: (value2, count2) :: _ =>
    let lights_on := if value1 > value2 then value1 else value2
    if (count2 : ℚ) > (NUMBER_OF_FRAMES : ℚ) / 4 then
      if ¬((value1 : ℤ) = (value2 : ℤ) - 1) ∧ ¬((value1 : ℤ) - 1 = (value2 : ℤ)) then none
      else some (true, lights_on)
    else some (false, lights_on)

/-- Normalization (analyze.py lines 295-297): a single, non-blinking lit
light is reported as zero lights. -/
def normalizeVerdict (v : Bool × ℕ) : Bool × ℕ :=
  if v.2 = 1 ∧ v.1 = false then (v.1, 0) else v

/-- Frequency-annotated frames (analyze.py lines 299-316): for each
distinct value in tally order, the first stored frame with that
`light_value`, annotated with the occurrence count (the annotation text
again leaves the pixels unchanged). -/
def buildFrequencyFrames (items : List (ℕ × ℕ)) (stored : List FrameData) : List FrameData :=
  items.filterMap (fun vc =>
    (stored.find? (fun fd => fd.light_value == LightValue.val vc.1)).map
      (fun fd => ⟨fd.original_frame, fd.annotated_frame, LightValue.val vc.1⟩))

-- --- The public function (analyze.py lines 191-318)

/-- Green-bound selection from the initial frame (analyze.py lines
199-216): pressed wins, then the general light, then dark. -/
def boundsFor (frame : Frame) : HSV × HSV :=
  if determine_pressed_state frame then (PRESSED_LOWER_GREEN, PRESSED_UPPER_GREEN)
  else if determine_general_light frame then (LIGHT_LOWER_GREEN, LIGHT_UPPER_GREEN)
  else (DARK_LOWER_GREEN, DARK_UPPER_GREEN)

/-- Packaging of a successful run (analyze.py line 318 together with the
normalization and the frequency frames). -/
def finishStatus (general_light_on : Bool) (bounds : HSV × HSV)
    (out : LoopOut) (verdict : Bool × ℕ) : BoilerStatus :=
  ⟨(normalizeVerdict verdict).1, (normalizeVerdict verdict).2, general_light_on,
    out.frames, buildFrequencyFrames (tally out.values) out.frames,
    bounds.1, bounds.2⟩

/-- `analyze` (analyze.py lines 191-318). -/
def analyze (cap : ℕ → Option Frame) : Option BoilerStatus :=
  match cap 0 with
  | none => none
  | some frame =>
    let general_light_on := determine_general_light frame
    let bounds := boundsFor frame
    match runLoop cap bounds.1 bounds.2 with
    | none => none
    | some out =>
      if (out.failed : ℚ) > (NUMBER_OF_FRAMES : ℚ) / 4 then none
      else
        match resolveVerdict out.values with
        | none => none
        | some verdict => some (finishStatus general_light_on bounds out verdict)

-- --- Helper lemmas: the percentage test over integers

/-- The `ℚ` comparison of `is_percentage_reached` with a whole-number
percentage is the integer comparison `100 * count > total * p`. -/
theorem is_percentage_reached_nat (total count p : ℕ) :
    is_percentage_reached total count (p : ℚ) = decide (100 * count > total * p) := by
  rw [is_percentage_reached, decide_eq_decide]
  rw [gt_iff_lt, gt_iff_lt, div_eq_mul_inv, ← mul_assoc,
    mul_inv_lt_iff₀ (by norm_num : (0:ℚ) < 100)]
  rw [mul_comm (count : ℚ) 100]
  exact_mod_cast Iff.rfl

-- --- Helper: the detector as a function of the per-light verdicts

/-- The classification input the detector derives for light `i`:
`none` when one of its sub-ROI slices is empty, otherwise the
50%-threshold verdict on the pooled pixels. -/
def lightOpt (frame : Frame) (lower upper : HSV) (i : ℕ) : Option Bool :=
  (roiStats frame lower upper (LIGHT_ROIS.getD i [])).map
    (fun st => is_percentage_reached st.1 st.2 (LIGHT_REQUIRED_PERCENTAGE_GREEN : ℚ))

/-- The per-LED classification implicit in the detector: light `i` is
classified as on when its pooled green pixels reach the 50% threshold
(`false` also covers a light whose ROI slice is empty). -/
def lightLit (frame : Frame) (lower upper : HSV) (i : ℕ) : Bool :=
  (lightOpt frame lower upper i).getD false

/-- The control flow of the detector loop abstracted over the per-light
verdicts (same branching as `countLights`, with the pixel counting
factored out). -/
def classifyList : List (Option Bool) → ℕ → ℕ → Option ℕ
  | [], _, lights_on => some lights_on
  | o :: rest, light_index, lights_on =>
    match o with
    | none => none
    | some b =>
      if b then
        if lights_on ≠ light_index then none
        else classifyList rest (light_index + 1) (light_index + 1)
      else classifyList rest (light_index + 1) lights_on

theorem countLights_eq_classifyList (frame : Frame) (lower upper : HSV)
    (gs : List (List ROI)) :
    ∀ (k l : ℕ), countLights frame lower upper gs k l =
      classifyList (gs.map (fun g => (roiStats frame lower upper g).map
        (fun st => is_percentage_reached st.1 st.2 (LIGHT_REQUIRED_PERCENTAGE_GREEN : ℚ)))) k l := by
  induction gs with
  | nil => intro k l; rfl
  | cons g gs ih =>
    intro k l
    simp only [List.map_cons]
    cases h : roiStats frame lower upper g with
    | none => simp [countLights, classifyList, h]
    | some st =>
      obtain ⟨t, gr⟩ := st
      simp only [countLights, classifyList, h, Option.map_some']
      split_ifs <;> simp [ih]

/-- The detector is the abstract classification applied to the four
per-light verdicts. -/
theorem det_eq_classify (frame : Frame) (lower upper : HSV) :
    determine_number_of_lights_in_frame frame lower upper =
      classifyList [lightOpt frame lower upper 0, lightOpt frame lower upper 1,
        lightOpt frame lower upper 2, lightOpt frame lower upper 3] 0 0 := by
  rw [determine_number_of_lights_in_frame, countLights_eq_classifyList]
  rfl

/-- Finite case analysis: when the abstract classification returns a
count, the verdicts are exactly the prefix pattern of that count. -/
theorem classifyList_contiguity (o0 o1 o2 o3 : Option Bool) :
    classifyList [o0, o1, o2, o3] 0 0 ≠ none →
      (o0.getD false = decide (0 < (classifyList [o0, o1, o2, o3] 0 0).getD 0) ∧
       o1.getD false = decide (1 < (classifyList [o0, o1, o2, o3] 0 0).getD 0) ∧
       o2.getD false = decide (2 < (classifyList [o0, o1, o2, o3] 0 0).getD 0) ∧
       o3.getD false = decide (3 < (classifyList [o0, o1, o2, o3] 0 0).getD 0)) := by
  revert o0 o1 o2 o3; decide

/-- Finite case analysis: a gap in the verdicts (an off light before an
on light) forces the abstract classification to fail. -/
theorem classifyList_gap (o0 o1 o2 o3 : Option Bool) :
    ((o0.getD false = false ∧
        (o1.getD false = true ∨ o2.getD false = true ∨ o3.getD false = true)) ∨
     (o1.getD false = false ∧ (o2.getD false = true ∨ o3.getD false = true)) ∨
     (o2.getD false = false ∧ o3.getD false = true)) →
    classifyList [o0, o1, o2, o3] 0 0 = none := by
  revert o0 o1 o2 o3; decide

-- --- Helper lemmas: the sampling loop

/-- The combined result of read number `i`: `none` when the detector
failed on that frame (a failed read never occurs in a completed loop). -/
def readResult (cap : ℕ → Option Frame) (lower upper : HSV) (i : ℕ) : Option ℕ :=
  (cap i).bind (fun f => determine_number_of_lights_in_frame f lower upper)

/-- The events iteration `i` of a completed loop contributes to the
trace: its capture, followed by the sleep exactly when the detector
succeeded on the captured frame and the iteration is not the last. -/
def iterTrace (cap : ℕ → Option Frame) (lower upper : HSV) (i : ℕ) : List Event :=
  match cap (i + 1) with
  | none => []
  | some f =>
    Event.capture (i + 1) ::
      (match determine_number_of_lights_in_frame f lower upper with
       | none => []
       | some _ =>
         if i ≠ NUMBER_OF_FRAMES - 1 then [Event.sleep TIME_BETWEEN_FRAMES] else [])

/-- A completed loop performed every iteration: one stored frame per
iteration, and one numeric value or one failure per iteration. -/
theorem runLoopAux_counts (cap : ℕ → Option Frame) (lower upper : HSV) :
    ∀ (remaining frame_index : ℕ) (out : LoopOut),
      runLoopAux cap lower upper frame_index remaining = some out →
      out.values.length + out.failed = remaining ∧ out.frames.length = remaining := by
  intro remaining
  induction remaining with
  | zero =>
    intro fi out h
    rw [runLoopAux] at h
    cases h
    simp
  | succ r ih =>
    intro fi out h
    rw [runLoopAux] at h
    split at h
    · exact absurd h (by simp)
    · split at h
      · split at h
        · exact absurd h (by simp)
        · rename_i out' heq
          cases h
          have := ih (fi + 1) out' heq
          simp only [List.length_cons]
          omega
      · split at h
        · exact absurd h (by simp)
        · rename_i out' heq
          cases h
          have := ih (fi + 1) out' heq
          simp only [List.length_cons]
          omega

/-- Full characterization of a completed loop's output in terms of the
per-read results. -/
theorem runLoopAux_spec (cap : ℕ → Option Frame) (lower upper : HSV) :
    ∀ (remaining frame_index : ℕ) (out : LoopOut),
      runLoopAux cap lower upper frame_index remaining = some out →
      out.values = (List.range' (frame_index + 1) remaining).filterMap (readResult cap lower upper) ∧
      out.failed = ((List.range' (frame_index + 1) remaining).filter
        (fun i => (readResult cap lower upper i).isNone)).length ∧
      out.frames = (List.range' (frame_index + 1) remaining).filterMap
        (fun i => (cap i).map
          (fun f => mkStoredFrame f (determine_number_of_lights_in_frame f lower upper))) ∧
      out.events = (List.range' frame_index remaining).flatMap (iterTrace cap lower upper) := by
  intro remaining
  induction remaining with
  | zero =>
    intro fi out h
    rw [runLoopAux] at h
    cases h
    simp
  | succ r ih =>
    intro fi out h
    rw [runLoopAux] at h
    split at h
    · exact absurd h (by simp)
    · rename_i f hf
      split at h
      · rename_i hdet
        split at h
        · exact absurd h (by simp)
        · rename_i out' heq
          cases h
          obtain ⟨hv, hfail, hfr, hev⟩ := ih (fi + 1) out' heq
          refine ⟨?_, ?_, ?_, ?_⟩
          · simp [List.range'_succ, List.filterMap_cons, readResult, hf, hdet, hv]
          · simp [List.range'_succ, List.filter_cons, readResult, hf, hdet, hfail]
          · simp [List.range'_succ, List.filterMap_cons, hf, hdet, hfr]
          · simp [List.range'_succ, List.flatMap_cons, iterTrace, hf, hdet, hev]
      · rename_i n hdet
        split at h
        · exact absurd h (by simp)
        · rename_i out' heq
          cases h
          obtain ⟨hv, hfail, hfr, hev⟩ := ih (fi + 1) out' heq
          refine ⟨?_, ?_, ?_, ?_⟩
          · simp [List.range'_succ, List.filterMap_cons, readResult, hf, hdet, hv]
          · simp [List.range'_succ, List.filter_cons, readResult, hf, hdet, hfail]
          · simp [List.range'_succ, List.filterMap_cons, hf, hdet, hfr]
          · simp [List.range'_succ, List.flatMap_cons, iterTrace, hf, hdet, hev]

/-- The loop completes whenever every read during it succeeds. -/
theorem runLoopAux_isSome (cap : ℕ → Option Frame) (lower upper : HSV) :
    ∀ (remaining frame_index : ℕ),
      (∀ k, k < remaining → (cap (frame_index + 1 + k)).isSome) →
      (runLoopAux cap lower upper frame_index remaining).isSome := by
  intro remaining
  induction remaining with
  | zero => intro fi _; rw [runLoopAux]; rfl
  | succ r ih =>
    intro fi h
    have h0 : (cap (fi + 1)).isSome := by
      have := h 0 (by omega)
      simpa using this
    obtain ⟨f, hf⟩ := Option.isSome_iff_exists.mp h0
    have htail : (runLoopAux cap lower upper (fi + 1) r).isSome := by
      apply ih
      intro k hk
      have := h (k + 1) (by omega)
      simpa [show fi + 1 + (k + 1) = fi + 1 + 1 + k by omega] using this
    obtain ⟨out', hout'⟩ := Option.isSome_iff_exists.mp htail
    cases hdet : determine_number_of_lights_in_frame f lower upper <;>
      simp [runLoopAux, hf, hdet, hout']

-- --- Helper lemmas: unfolding analyze

/-- Computation of `analyze` after a successful initial read and a
completed sampling loop. -/
theorem analyze_eq (cap : ℕ → Option Frame) (f0 : Frame) (out : LoopOut)
    (h0 : cap 0 = some f0)
    (hloop : runLoop cap (boundsFor f0).1 (boundsFor f0).2 = some out) :
    analyze cap =
      if (out.failed : ℚ) > (NUMBER_OF_FRAMES : ℚ) / 4 then none
      else
        match resolveVerdict out.values with
        | none => none
        | some verdict =>
          some (finishStatus (determine_general_light f0) (boundsFor f0) out verdict) := by
  simp only [analyze, h0, hloop]

/-- Inversion: a returned status comes from a successful initial read, a
completed loop, a passed failure gate and a resolved verdict. -/
theorem analyze_some_inv (cap : ℕ → Option Frame) (s : BoilerStatus)
    (h : analyze cap = some s) :
    ∃ f0 out verdict, cap 0 = some f0 ∧
      runLoop cap (boundsFor f0).1 (boundsFor f0).2 = some out ∧
      ¬((out.failed : ℚ) > (NUMBER_OF_FRAMES : ℚ) / 4) ∧
      resolveVerdict out.values = some verdict ∧
      s = finishStatus (determine_general_light f0) (boundsFor f0) out verdict := by
  rw [analyze] at h
  split at h
  · exact absurd h (by simp)
  · rename_i f0 h0
    simp only at h
    split at h
    · exact absurd h (by simp)
    · rename_i out hloop
      split at h
      · exact absurd h (by simp)
      · rename_i hgate
        split at h
        · exact absurd h (by simp)
        · rename_i verdict hres
          exact ⟨f0, out, verdict, h0, hloop, hgate, hres, (Option.some_inj.mp h).symm⟩

-- --- Helper lemmas: the frequency tally

theorem bump_ne_nil (v : ℕ) (l : List (ℕ × ℕ)) : bump v l ≠ [] := by
  cases l with
  | nil => simp [bump]
  | cons x xs =>
    obtain ⟨w, c⟩ := x
    by_cases h : w = v <;> simp [bump, h]

theorem tally_foldl_ne_nil (values : List ℕ) :
    ∀ (acc : List (ℕ × ℕ)), acc ≠ [] →
      values.foldl (fun acc v => bump v acc) acc ≠ [] := by
  induction values with
  | nil => intro acc h; simpa using h
  | cons v vs ih =>
    intro acc _
    simp only [List.foldl_cons]
    exact ih _ (bump_ne_nil v acc)

/-- The tally of a non-empty value list is non-empty. -/
theorem tally_ne_nil (values : List ℕ) (h : values ≠ []) : tally values ≠ [] := by
  cases values with
  | nil => exact absurd rfl h
  | cons v vs =>
    rw [tally]
    simp only [List.foldl_cons]
    exact tally_foldl_ne_nil vs _ (bump_ne_nil v [])

theorem pickTop_ne_none (l : List (ℕ × ℕ)) (h : l ≠ []) : pickTop l ≠ none := by
  cases l with
  | nil => exact absurd rfl h
  | cons x xs =>
    cases h' : pickTop xs with
    | none => simp [pickTop, h']
    | some p =>
      simp only [pickTop, h']
      split_ifs <;> simp

/-- `most_common 2` of a non-empty tally is non-empty. -/
theorem most_common_two_ne_nil (l : List (ℕ × ℕ)) (h : l ≠ []) :
    most_common 2 l ≠ [] := by
  rw [most_common]
  cases h' : pickTop l with
  | none => exact absurd h' (pickTop_ne_none l h)
  | some p => simp

-- --- Evaluation helpers for concrete frames

/-- Pooled verdict of light `i` from its computed pixel statistics. -/
theorem lightOpt_eval (frame : Frame) (lower upper : HSV) (i t g : ℕ)
    (h : roiStats frame lower upper (LIGHT_ROIS.getD i []) = some (t, g)) :
    lightOpt frame lower upper i =
      some (decide (100 * g > t * LIGHT_REQUIRED_PERCENTAGE_GREEN)) := by
  rw [lightOpt, h, Option.map_some', is_percentage_reached_nat]

theorem lightOpt_none (frame : Frame) (lower upper : HSV) (i : ℕ)
    (h : roiStats frame lower upper (LIGHT_ROIS.getD i []) = none) :
    lightOpt frame lower upper i = none := by
  rw [lightOpt, h]; rfl

-- --- Concrete frames used to exercise the engine

/-- A green pixel inside every one of the three tuned HSV ranges. -/
def greenPixel : HSV := ⟨70, 120, 120⟩

/-- A frame that is black everywhere (no LED lit, room dark). -/
def blackFrame : Frame := ⟨360, 480, fun _ _ => ⟨0, 0, 0⟩, fun _ _ => 0⟩

/-- A frame that is green everywhere (all LEDs lit, button pressed). -/
def greenFrame : Frame := ⟨360, 480, fun _ _ => greenPixel, fun _ _ => 200⟩

/-- Rectangle membership used to paint synthetic frames. -/
def inROI (r : ROI) (y x : ℕ) : Bool :=
  decide (r.y1 ≤ y) && decide (y < r.y2) && decide (r.x1 ≤ x) && decide (x < r.x2)

/-- A frame where exactly the first LED group (index 0) is green. -/
def oneLightFrame : Frame :=
  ⟨360, 480,
    fun y x => if inROI ⟨110, 122, 128, 226⟩ y x || inROI ⟨128, 122, 164, 151⟩ y x
      then greenPixel else ⟨0, 0, 0⟩,
    fun _ _ => 0⟩

/-- A frame where exactly the second LED group (index 1) is green: a
non-contiguous activation pattern. -/
def gapFrame : Frame :=
  ⟨360, 480,
    fun y x => if inROI ⟨183, 139, 221, 168⟩ y x || inROI ⟨207, 168, 230, 216⟩ y x
      then greenPixel else ⟨0, 0, 0⟩,
    fun _ _ => 0⟩

-- --- Detector results on the concrete frames

theorem det_blackFrame_dark :
    determine_number_of_lights_in_frame blackFrame DARK_LOWER_GREEN DARK_UPPER_GREEN = some 0 := by
  rw [det_eq_classify,
    lightOpt_eval _ _ _ 0 2916 0 (by decide),
    lightOpt_eval _ _ _ 1 2206 0 (by decide),
    lightOpt_eval _ _ _ 2 2151 0 (by decide),
    lightOpt_eval _ _ _ 3 3541 0 (by decide)]
  decide

theorem det_blackFrame_pressed :
    determine_number_of_lights_in_frame blackFrame PRESSED_LOWER_GREEN PRESSED_UPPER_GREEN = some 0 := by
  rw [det_eq_classify,
    lightOpt_eval _ _ _ 0 2916 0 (by decide),
    lightOpt_eval _ _ _ 1 2206 0 (by decide),
    lightOpt_eval _ _ _ 2 2151 0 (by decide),
    lightOpt_eval _ _ _ 3 3541 0 (by decide)]
  decide

theorem det_greenFrame_pressed :
    determine_number_of_lights_in_frame greenFrame PRESSED_LOWER_GREEN PRESSED_UPPER_GREEN = some 4 := by
  rw [det_eq_classify,
    lightOpt_eval _ _ _ 0 2916 2916 (by decide),
    lightOpt_eval _ _ _ 1 2206 2206 (by decide),
    lightOpt_eval _ _ _ 2 2151 2151 (by decide),
    lightOpt_eval _ _ _ 3 3541 3541 (by decide)]
  decide

theorem det_oneLightFrame_dark :
    determine_number_of_lights_in_frame oneLightFrame DARK_LOWER_GREEN DARK_UPPER_GREEN = some 1 := by
  rw [det_eq_classify,
    lightOpt_eval _ _ _ 0 2916 2916 (by decide),
    lightOpt_eval _ _ _ 1 2206 0 (by decide),
    lightOpt_eval _ _ _ 2 2151 0 (by decide),
    lightOpt_eval _ _ _ 3 3541 0 (by decide)]
  decide

theorem det_gapFrame_dark :
    determine_number_of_lights_in_frame gapFrame DARK_LOWER_GREEN DARK_UPPER_GREEN = none := by
  rw [det_eq_classify,
    lightOpt_eval _ _ _ 0 2916 0 (by decide),
    lightOpt_eval _ _ _ 1 2206 2206 (by decide),
    lightOpt_eval _ _ _ 2 2151 0 (by decide),
    lightOpt_eval _ _ _ 3 3541 0 (by decide)]
  decide

-- --- Per-LED classifications on the concrete frames

theorem lightLit_gapFrame_0 :
    lightLit gapFrame DARK_LOWER_GREEN DARK_UPPER_GREEN 0 = false := by
  rw [lightLit, lightOpt_eval _ _ _ 0 2916 0 (by decide)]
  decide

theorem lightLit_gapFrame_1 :
    lightLit gapFrame DARK_LOWER_GREEN DARK_UPPER_GREEN 1 = true := by
  rw [lightLit, lightOpt_eval _ _ _ 1 2206 2206 (by decide)]
  decide

-- --- Scene conditions on the concrete frames

theorem pressed_blackFrame : determine_pressed_state blackFrame = false := by
  rw [determine_pressed_state, is_percentage_reached_nat]
  decide

theorem pressed_greenFrame : determine_pressed_state greenFrame = true := by
  rw [determine_pressed_state, is_percentage_reached_nat]
  decide

theorem pressed_oneLightFrame : determine_pressed_state oneLightFrame = false := by
  rw [determine_pressed_state, is_percentage_reached_nat]
  decide

theorem pressed_gapFrame : determine_pressed_state gapFrame = false := by
  rw [determine_pressed_state, is_percentage_reached_nat]
  decide

/-- A frame whose grayscale view is identically zero is never bright
enough for the general light. -/
theorem general_light_zero_gray (rows cols : ℕ) (px : ℕ → ℕ → HSV) :
    determine_general_light ⟨rows, cols, px, fun _ _ => 0⟩ = false := by
  have hmean : grayMean ⟨rows, cols, px, fun _ _ => 0⟩ GENERAL_LIGHT_ROI = 0 := by
    simp [grayMean]
  rw [determine_general_light, hmean]
  simp [GENERAL_LIGHT_BRIGHTNESS_THRESHOLD]

theorem boundsFor_blackFrame :
    boundsFor blackFrame = (DARK_LOWER_GREEN, DARK_UPPER_GREEN) := by
  rw [boundsFor, pressed_blackFrame]
  rw [show determine_general_light blackFrame = false from general_light_zero_gray _ _ _]
  rfl

theorem boundsFor_greenFrame :
    boundsFor greenFrame = (PRESSED_LOWER_GREEN, PRESSED_UPPER_GREEN) := by
  rw [boundsFor, pressed_greenFrame]
  rfl

theorem boundsFor_oneLightFrame :
    boundsFor oneLightFrame = (DARK_LOWER_GREEN, DARK_UPPER_GREEN) := by
  rw [boundsFor, pressed_oneLightFrame]
  rw [show determine_general_light oneLightFrame = false from general_light_zero_gray _ _ _]
  rfl

theorem boundsFor_gapFrame :
    boundsFor gapFrame = (DARK_LOWER_GREEN, DARK_UPPER_GREEN) := by
  rw [boundsFor, pressed_gapFrame]
  rw [show determine_general_light gapFrame = false from general_light_zero_gray _ _ _]
  rfl

-- --- Concrete capture sequences

/-- Every read returns the all-black frame. -/
def capAllBlack : ℕ → Option Frame := fun _ => some blackFrame

/-- The first 16 reads return the all-green frame, the rest the
all-black frame: 15 sampled frames with four lights, 15 with none. -/
def capHalfGreen : ℕ → Option Frame := fun i => some (if i < 16 then greenFrame else blackFrame)

/-- Every read returns the frame with exactly the first LED lit. -/
def capOneLight : ℕ → Option Frame := fun _ => some oneLightFrame

/-- Every read returns the frame with only the second LED green — a
non-contiguous activation pattern on which the detector always fails. -/
def capAllGap : ℕ → Option Frame := fun _ => some gapFrame

-- --- Loop outputs of the concrete capture sequences

theorem capAllBlack_out (out : LoopOut)
    (hout : runLoop capAllBlack DARK_LOWER_GREEN DARK_UPPER_GREEN = some out) :
    out.values = List.replicate 30 0 ∧ out.failed = 0 := by
  obtain ⟨hv, hfail, -, -⟩ :=
    runLoopAux_spec capAllBlack _ _ NUMBER_OF_FRAMES 0 out hout
  have hpt : ∀ i ∈ List.range' (0 + 1) NUMBER_OF_FRAMES,
      readResult capAllBlack DARK_LOWER_GREEN DARK_UPPER_GREEN i =
        (fun _ => some 0) i := by
    intro i _
    simp [readResult, capAllBlack, det_blackFrame_dark]
  refine ⟨?_, ?_⟩
  · rw [hv, List.filterMap_congr hpt]
    decide
  · have hpt2 : ∀ i ∈ List.range' (0 + 1) NUMBER_OF_FRAMES,
        ((readResult capAllBlack DARK_LOWER_GREEN DARK_UPPER_GREEN i).isNone) =
          (fun _ => false) i := by
      intro i hi
      rw [hpt i hi]
      rfl
    rw [hfail, List.filter_congr hpt2]
    decide

theorem capOneLight_out (out : LoopOut)
    (hout : runLoop capOneLight DARK_LOWER_GREEN DARK_UPPER_GREEN = some out) :
    out.values = List.replicate 30 1 ∧ out.failed = 0 := by
  obtain ⟨hv, hfail, -, -⟩ :=
    runLoopAux_spec capOneLight _ _ NUMBER_OF_FRAMES 0 out hout
  have hpt : ∀ i ∈ List.range' (0 + 1) NUMBER_OF_FRAMES,
      readResult capOneLight DARK_LOWER_GREEN DARK_UPPER_GREEN i =
        (fun _ => some 1) i := by
    intro i _
    simp [readResult, capOneLight, det_oneLightFrame_dark]
  refine ⟨?_, ?_⟩
  · rw [hv, List.filterMap_congr hpt]
    decide
  · have hpt2 : ∀ i ∈ List.range' (0 + 1) NUMBER_OF_FRAMES,
        ((readResult capOneLight DARK_LOWER_GREEN DARK_UPPER_GREEN i).isNone) =
          (fun _ => false) i := by
      intro i hi
      rw [hpt i hi]
      rfl
    rw [hfail, List.filter_congr hpt2]
    decide

theorem capHalfGreen_out (out : LoopOut)
    (hout : runLoop capHalfGreen PRESSED_LOWER_GREEN PRESSED_UPPER_GREEN = some out) :
    out.values = List.replicate 15 4 ++ List.replicate 15 0 ∧ out.failed = 0 := by
  obtain ⟨hv, hfail, -, -⟩ :=
    runLoopAux_spec capHalfGreen _ _ NUMBER_OF_FRAMES 0 out hout
  have hpt : ∀ i ∈ List.range' (0 + 1) NUMBER_OF_FRAMES,
      readResult capHalfGreen PRESSED_LOWER_GREEN PRESSED_UPPER_GREEN i =
        (fun j => if j < 16 then some 4 else some 0) i := by
    intro i _
    by_cases h16 : i < 16 <;>
      simp [readResult, capHalfGreen, h16, det_greenFrame_pressed, det_blackFrame_pressed]
  refine ⟨?_, ?_⟩
  · rw [hv, List.filterMap_congr hpt]
    decide
  · have hpt2 : ∀ i ∈ List.range' (0 + 1) NUMBER_OF_FRAMES,
        ((readResult capHalfGreen PRESSED_LOWER_GREEN PRESSED_UPPER_GREEN i).isNone) =
          (fun _ => false) i := by
      intro i hi
      rw [hpt i hi]
      by_cases h16 : i < 16 <;> simp [h16]
    rw [hfail, List.filter_congr hpt2]
    decide

theorem capAllGap_out (out : LoopOut)
    (hout : runLoop capAllGap DARK_LOWER_GREEN DARK_UPPER_GREEN = some out) :
    out.values = [] ∧ out.failed = 30 := by
  obtain ⟨hv, hfail, -, -⟩ :=
    runLoopAux_spec capAllGap _ _ NUMBER_OF_FRAMES 0 out hout
  have hpt : ∀ i ∈ List.range' (0 + 1) NUMBER_OF_FRAMES,
      readResult capAllGap DARK_LOWER_GREEN DARK_UPPER_GREEN i =
        (fun _ => (none : Option ℕ)) i := by
    intro i _
    simp [readResult, capAllGap, det_gapFrame_dark]
  refine ⟨?_, ?_⟩
  · rw [hv, List.filterMap_congr hpt]
    decide
  · have hpt2 : ∀ i ∈ List.range' (0 + 1) NUMBER_OF_FRAMES,
        ((readResult capAllGap DARK_LOWER_GREEN DARK_UPPER_GREEN i).isNone) =
          (fun _ => true) i := by
      intro i hi
      rw [hpt i hi]
      rfl
    rw [hfail, List.filter_congr hpt2]
    decide

-- --- Further shared lemmas

theorem flatMap_pointwise {α β : Type} (l : List α) (f g : α → List β)
    (h : ∀ a ∈ l, f a = g a) : l.flatMap f = l.flatMap g := by
  induction l with
  | nil => rfl
  | cons a l ih =>
    simp only [List.flatMap_cons]
    rw [h a (by simp), ih (fun b hb => h b (by simp [hb]))]

/-- A run that passes the failure gate has at least one successful
frame. -/
theorem values_ne_nil_of_gate (cap : ℕ → Option Frame) (lower upper : HSV) (out : LoopOut)
    (hloop : runLoop cap lower upper = some out)
    (hgate : ¬ ((out.failed : ℚ) > (NUMBER_OF_FRAMES : ℚ) / 4)) :
    out.values ≠ [] := by
  intro hnil
  have hcounts := runLoopAux_counts cap lower upper NUMBER_OF_FRAMES 0 out hloop
  have hfail : out.failed = NUMBER_OF_FRAMES := by
    rw [hnil] at hcounts
    simpa using hcounts.1
  apply hgate
  rw [hfail]
  norm_num [NUMBER_OF_FRAMES]

/-- Index-wise contents of a completed loop's stored frames. -/
theorem runLoopAux_frames (cap : ℕ → Option Frame) (lower upper : HSV) :
    ∀ (remaining frame_index : ℕ) (out : LoopOut),
      runLoopAux cap lower upper frame_index remaining = some out →
      ∀ i, i < remaining → ∃ f, cap (frame_index + 1 + i) = some f ∧
        out.frames[i]? = some (mkStoredFrame f
          (determine_number_of_lights_in_frame f lower upper)) := by
  intro remaining
  induction remaining with
  | zero => intro fi out h i hi; omega
  | succ r ih =>
    intro fi out h i hi
    rw [runLoopAux] at h
    split at h
    · exact absurd h (by simp)
    · rename_i f hf
      split at h
      · rename_i hdet
        split at h
        · exact absurd h (by simp)
        · rename_i out' heq
          cases h
          cases i with
          | zero => exact ⟨f, by simpa using hf, by simp [hdet]⟩
          | succ i' =>
            obtain ⟨f', hf', hfr⟩ := ih (fi + 1) out' heq i' (by omega)
            exact ⟨f', by simpa [show fi + 1 + (i' + 1) = fi + 1 + 1 + i' by omega] using hf',
              by simpa using hfr⟩
      · rename_i n hdet
        split at h
        · exact absurd h (by simp)
        · rename_i out' heq
          cases h
          cases i with
          | zero => exact ⟨f, by simpa using hf, by simp [hdet]⟩
          | succ i' =>
            obtain ⟨f', hf', hfr⟩ := ih (fi + 1) out' heq i' (by omega)
            exact ⟨f', by simpa [show fi + 1 + (i' + 1) = fi + 1 + 1 + i' by omega] using hf',
              by simpa using hfr⟩

/-- The pair a downstream consumer reads off a returned status. -/
def statusVerdict (s : BoilerStatus) : Bool × ℕ := (s.heating, s.lights_on)

-- --- Claim theorems

/-- C6, counterexample: the claim asserts that `is_percentage_reached`
returns `false` whenever `total = 0` regardless of `count`; but the code
computes `count > 0 * (25 / 100)`, which is `true` for `total = 0`,
`count = 1`, `percentage = 25`. -/
theorem is_percentage_reached_zero_total_cex :
    is_percentage_reached 0 1 ((25 : ℕ) : ℚ) = true := by
  rw [is_percentage_reached_nat]
  decide

/-- C6, amended: for every `total`, `count` and whole-number percentage
`p`, `is_percentage_reached` is `true` iff `count` strictly exceeds
`total * p / 100` (an exact threshold match gives `false`); for
`total = 0` there is no special case, so the comparison degenerates to
`count > 0` and the function returns `true` for every positive count. -/
theorem is_percentage_reached_spec (total count p : ℕ) :
    (is_percentage_reached total count (p : ℚ) = true ↔ 100 * count > total * p) ∧
    (total = 0 → (is_percentage_reached total count (p : ℚ) = true ↔ 0 < count)) := by
  have h := is_percentage_reached_nat total count p
  constructor
  · rw [h]
    simp only [decide_eq_true_eq]
  · rintro rfl
    rw [h]
    simp only [decide_eq_true_eq]
    omega

/-- C6, witness: the amended characterization at concrete inputs —
`2 of 3` pixels strictly exceed 50%, `2 of 4` pixels exactly meet 50%
and are rejected, and a positive count over a zero total is accepted. -/
theorem is_percentage_reached_spec_wit :
    is_percentage_reached 3 2 ((50 : ℕ) : ℚ) = true ∧
    is_percentage_reached 4 2 ((50 : ℕ) : ℚ) = false ∧
    is_percentage_reached 0 5 ((25 : ℕ) : ℚ) = true := by
  refine ⟨?_, ?_, ?_⟩
  · exact (is_percentage_reached_spec 3 2 50).1.mpr (by omega)
  · cases hb : is_percentage_reached 4 2 ((50 : ℕ) : ℚ)
    · rfl
    · exact absurd ((is_percentage_reached_spec 4 2 50).1.mp hb) (by omega)
  · exact ((is_percentage_reached_spec 0 5 25).2 rfl).mpr (by omega)

/-- C7: `determine_pressed_state` is `true` exactly when at least 25% of
the pressed-state ROI's 750 pixels match the PRESSED HSV range.  The
code tests the strict `count > 187.5`; since 25% of 750 is not an
integer, no frame can match exactly 25% (second conjunct), and over the
integers the strict test coincides with `count ≥ 25%`, so the claim
holds — its "exactly 25%" case is unrealizable. -/
theorem determine_pressed_state_spec (frame : Frame) :
    (determine_pressed_state frame = true ↔
      (countGreen frame PRESSED_LOWER_GREEN PRESSED_UPPER_GREEN IS_PRESSED_ROI : ℚ) ≥
        ((PRESSED_REQUIRED_PERCENTAGE_GREEN : ℚ) / 100) * (roiSize IS_PRESSED_ROI : ℚ)) ∧
    (countGreen frame PRESSED_LOWER_GREEN PRESSED_UPPER_GREEN IS_PRESSED_ROI : ℚ) ≠
      ((PRESSED_REQUIRED_PERCENTAGE_GREEN : ℚ) / 100) * (roiSize IS_PRESSED_ROI : ℚ) := by
  have hthr : ((PRESSED_REQUIRED_PERCENTAGE_GREEN : ℚ) / 100) * (roiSize IS_PRESSED_ROI : ℚ)
      = 375 / 2 := by
    norm_num [PRESSED_REQUIRED_PERCENTAGE_GREEN, roiSize, IS_PRESSED_ROI]
  set c := countGreen frame PRESSED_LOWER_GREEN PRESSED_UPPER_GREEN IS_PRESSED_ROI with hc
  have h1 : determine_pressed_state frame =
      decide (100 * c > roiSize IS_PRESSED_ROI * PRESSED_REQUIRED_PERCENTAGE_GREEN) := by
    rw [determine_pressed_state, is_percentage_reached_nat, hc]
  constructor
  · rw [h1, hthr]
    simp only [decide_eq_true_eq]
    rw [ge_iff_le, div_le_iff₀ (by norm_num : (0:ℚ) < 2)]
    have hcast : ((375 : ℚ) ≤ (c : ℚ) * 2) ↔ (375 ≤ c * 2) := by
      exact_mod_cast Iff.rfl
    rw [hcast]
    simp only [roiSize, IS_PRESSED_ROI, PRESSED_REQUIRED_PERCENTAGE_GREEN]
    norm_num
    omega
  · rw [hthr]
    intro heq
    have h2 : (c : ℚ) * 2 = 375 := by rw [heq]; ring
    have h3 : c * 2 = 375 := by exact_mod_cast h2
    omega

/-- C1: for any frame and any HSV bounds, (a) whenever the detector
returns a count `n`, the per-LED classification is exactly the prefix
`0 .. n-1` of the four LED groups, and (b) any frame whose per-LED
classification turns a lower-indexed LED off while a higher-indexed LED
is on makes the detector fail with `none`. -/
theorem detector_counts_contiguous_lights (frame : Frame) (lower upper : HSV) :
    (∀ n, determine_number_of_lights_in_frame frame lower upper = some n →
      ∀ i, i < 4 → lightLit frame lower upper i = decide (i < n)) ∧
    (∀ i j, i < j → j < 4 → lightLit frame lower upper i = false →
      lightLit frame lower upper j = true →
      determine_number_of_lights_in_frame frame lower upper = none) := by
  have hbr := det_eq_classify frame lower upper
  constructor
  · intro n hn i hi
    rw [hbr] at hn
    have hne : classifyList [lightOpt frame lower upper 0, lightOpt frame lower upper 1,
        lightOpt frame lower upper 2, lightOpt frame lower upper 3] 0 0 ≠ none := by
      rw [hn]; simp
    have h := classifyList_contiguity _ _ _ _ hne
    rw [hn] at h
    simp only [Option.getD_some] at h
    interval_cases i
    · rw [lightLit]; exact h.1
    · rw [lightLit]; exact h.2.1
    · rw [lightLit]; exact h.2.2.1
    · rw [lightLit]; exact h.2.2.2
  · intro i j hij hj hoff hon
    rw [hbr]
    apply classifyList_gap
    simp only [lightLit] at hoff hon
    interval_cases j <;> interval_cases i
    · exact Or.inl ⟨hoff, Or.inl hon⟩
    · exact Or.inl ⟨hoff, Or.inr (Or.inl hon)⟩
    · exact Or.inr (Or.inl ⟨hoff, Or.inl hon⟩)
    · exact Or.inl ⟨hoff, Or.inr (Or.inr hon)⟩
    · exact Or.inr (Or.inl ⟨hoff, Or.inr hon⟩)
    · exact Or.inr (Or.inr ⟨hoff, hon⟩)

/-- C1, witness: the frame with only the second LED green is rejected by
part (b) with LED 0 off and LED 1 on, and on the all-black frame the
detector returns 0 with part (a) classifying LED 2 as off. -/
theorem detector_counts_contiguous_lights_wit :
    determine_number_of_lights_in_frame gapFrame DARK_LOWER_GREEN DARK_UPPER_GREEN = none ∧
    lightLit blackFrame DARK_LOWER_GREEN DARK_UPPER_GREEN 2 = decide (2 < 0) := by
  refine ⟨?_, ?_⟩
  · exact (detector_counts_contiguous_lights gapFrame DARK_LOWER_GREEN DARK_UPPER_GREEN).2
      0 1 (by omega) (by omega) lightLit_gapFrame_0 lightLit_gapFrame_1
  · exact (detector_counts_contiguous_lights blackFrame DARK_LOWER_GREEN DARK_UPPER_GREEN).1
      0 det_blackFrame_dark 2 (by omega)

/-- C2: in a run reaching frequency analysis with two or more distinct
values whose second count is blink-significant (strictly above a
quarter of the 30 iterations), any returned status has `heating = true`
and the top two values adjacent, and when the top two values are not
adjacent the run aborts with `none`. -/
theorem analyze_blink_requires_adjacent (cap : ℕ → Option Frame) (f0 : Frame) (out : LoopOut)
    (v1 c1 v2 c2 : ℕ) (rest : List (ℕ × ℕ))
    (h0 : cap 0 = some f0)
    (hloop : runLoop cap (boundsFor f0).1 (boundsFor f0).2 = some out)
    (hgate : ¬ ((out.failed : ℚ) > (NUMBER_OF_FRAMES : ℚ) / 4))
    (htop : most_common 2 (tally out.values) = (v1, c1) :: (v2, c2) :: rest)
    (hc2 : (c2 : ℚ) > (NUMBER_OF_FRAMES : ℚ) / 4) :
    (∀ s, analyze cap = some s →
      s.heating = true ∧ ((v1 : ℤ) - (v2 : ℤ)).natAbs = 1) ∧
    (((v1 : ℤ) - (v2 : ℤ)).natAbs ≠ 1 → analyze cap = none) := by
  have hana := analyze_eq cap f0 out h0 hloop
  rw [if_neg hgate] at hana
  have hres : resolveVerdict out.values =
      if ¬((v1 : ℤ) = (v2 : ℤ) - 1) ∧ ¬((v1 : ℤ) - 1 = (v2 : ℤ)) then none
      else some (true, if v1 > v2 then v1 else v2) := by
    rw [resolveVerdict, htop]
    dsimp only
    rw [if_pos hc2]
  constructor
  · intro s hs
    by_cases hadj : ((v1 : ℤ) - (v2 : ℤ)).natAbs = 1
    · refine ⟨?_, hadj⟩
      have hcond : ¬(¬((v1 : ℤ) = (v2 : ℤ) - 1) ∧ ¬((v1 : ℤ) - 1 = (v2 : ℤ))) := by omega
      rw [hres, if_neg hcond] at hana
      rw [hana] at hs
      have hs' := Option.some_inj.mp hs
      rw [← hs']
      simp [finishStatus, normalizeVerdict]
    · exfalso
      have hcond : ¬((v1 : ℤ) = (v2 : ℤ) - 1) ∧ ¬((v1 : ℤ) - 1 = (v2 : ℤ)) := by omega
      rw [hres, if_pos hcond] at hana
      rw [hana] at hs
      exact Option.noConfusion hs
  · intro hadj
    have hcond : ¬((v1 : ℤ) = (v2 : ℤ) - 1) ∧ ¬((v1 : ℤ) - 1 = (v2 : ℤ)) := by omega
    rw [hana, hres, if_pos hcond]

/-- C2, witness: 15 frames showing four lights followed by 15 frames
showing none — blink-significant but non-adjacent top values (4 and 0),
so the run returns no result. -/
theorem analyze_blink_requires_adjacent_wit : analyze capHalfGreen = none := by
  have h0 : capHalfGreen 0 = some greenFrame := by norm_num [capHalfGreen]
  obtain ⟨out, hout⟩ := Option.isSome_iff_exists.mp
    (runLoopAux_isSome capHalfGreen PRESSED_LOWER_GREEN PRESSED_UPPER_GREEN
      NUMBER_OF_FRAMES 0 (fun k _ => rfl))
  have hout' : runLoop capHalfGreen PRESSED_LOWER_GREEN PRESSED_UPPER_GREEN = some out := hout
  have hvf := capHalfGreen_out out hout'
  exact (analyze_blink_requires_adjacent capHalfGreen greenFrame out 4 15 0 15 [] h0
    (by rw [boundsFor_greenFrame]; exact hout')
    (by rw [hvf.2]; norm_num [NUMBER_OF_FRAMES])
    (by rw [hvf.1]; decide)
    (by norm_num [NUMBER_OF_FRAMES])).2 (by decide)

/-- The count of the second-most-frequent light value of a run
(0 when fewer than two distinct values occurred). -/
def secondCount (values : List ℕ) : ℕ :=
  match most_common 2 (tally values) with
  | _ :: (_, c2) :: _ => c2
  | _ => 0

/-- The larger of the top-two observed light values (the single value
itself when only one occurred). -/
def topLights (values : List ℕ) : ℕ :=
  match most_common 2 (tally values) with
  | [] => 0
  | [(v1, _)] => v1
  | (v1, _) :: (v2, _) :: _ => if v1 > v2 then v1 else v2

/-- C3: in a run reaching frequency analysis whose second-most-frequent
count is not blink-significant (including a single distinct value), the
pre-normalization verdict is `heating = false` with `lights_on` the
larger of the top-two observed values. -/
theorem analyze_minority_below_gate_no_blink (cap : ℕ → Option Frame) (f0 : Frame)
    (out : LoopOut)
    (h0 : cap 0 = some f0)
    (hloop : runLoop cap (boundsFor f0).1 (boundsFor f0).2 = some out)
    (hgate : ¬ ((out.failed : ℚ) > (NUMBER_OF_FRAMES : ℚ) / 4))
    (hc2 : ¬ ((secondCount out.values : ℚ) > (NUMBER_OF_FRAMES : ℚ) / 4)) :
    resolveVerdict out.values = some (false, topLights out.values) := by
  have hne := values_ne_nil_of_gate cap (boundsFor f0).1 (boundsFor f0).2 out hloop hgate
  have hmne := most_common_two_ne_nil _ (tally_ne_nil _ hne)
  rcases hmc : most_common 2 (tally out.values) with _ | ⟨⟨v1, c1⟩, tail⟩
  · exact absurd hmc hmne
  · rcases tail with _ | ⟨⟨v2, c2⟩, rest⟩
    · simp only [resolveVerdict, topLights, hmc]
    · have hsc : secondCount out.values = c2 := by rw [secondCount, hmc]
      rw [hsc] at hc2
      simp only [resolveVerdict, topLights, hmc]
      rw [if_neg hc2]

/-- C3, witness: thirty identical all-black frames — a single distinct
value 0, no blink significance, verdict `(false, 0)`. -/
theorem analyze_minority_below_gate_no_blink_wit :
    resolveVerdict (List.replicate 30 0) =
      some (false, topLights (List.replicate 30 0)) := by
  have h0 : capAllBlack 0 = some blackFrame := rfl
  obtain ⟨out, hout⟩ := Option.isSome_iff_exists.mp
    (runLoopAux_isSome capAllBlack DARK_LOWER_GREEN DARK_UPPER_GREEN
      NUMBER_OF_FRAMES 0 (fun k _ => rfl))
  have hout' : runLoop capAllBlack DARK_LOWER_GREEN DARK_UPPER_GREEN = some out := hout
  have hv := capAllBlack_out out hout'
  have h := analyze_minority_below_gate_no_blink capAllBlack blackFrame out h0
    (by rw [boundsFor_blackFrame]; exact hout')
    (by rw [hv.2]; norm_num [NUMBER_OF_FRAMES])
    (by rw [hv.1, show secondCount (List.replicate 30 0) = 0 from by decide]
        norm_num [NUMBER_OF_FRAMES])
  rw [hv.1] at h
  exact h

/-- C4: a run whose resolved pre-normalization verdict is one lit light
without blinking returns a status with `lights_on` forced to 0 and
`heating = false`. -/
theorem analyze_normalizes_single_light (cap : ℕ → Option Frame) (f0 : Frame) (out : LoopOut)
    (h0 : cap 0 = some f0)
    (hloop : runLoop cap (boundsFor f0).1 (boundsFor f0).2 = some out)
    (hgate : ¬ ((out.failed : ℚ) > (NUMBER_OF_FRAMES : ℚ) / 4))
    (hres : resolveVerdict out.values = some (false, 1)) :
    (analyze cap).map statusVerdict = some (false, 0) := by
  rw [analyze_eq cap f0 out h0 hloop, if_neg hgate, hres]
  rfl

/-- C4, witness: thirty identical frames with exactly one lit LED and no
blink; normalization forces `lights_on = 0`, `heating = false`. -/
theorem analyze_normalizes_single_light_wit :
    (analyze capOneLight).map statusVerdict = some (false, 0) := by
  have h0 : capOneLight 0 = some oneLightFrame := rfl
  obtain ⟨out, hout⟩ := Option.isSome_iff_exists.mp
    (runLoopAux_isSome capOneLight DARK_LOWER_GREEN DARK_UPPER_GREEN
      NUMBER_OF_FRAMES 0 (fun k _ => rfl))
  have hout' : runLoop capOneLight DARK_LOWER_GREEN DARK_UPPER_GREEN = some out := hout
  have hv := capOneLight_out out hout'
  exact analyze_normalizes_single_light capOneLight oneLightFrame out h0
    (by rw [boundsFor_oneLightFrame]; exact hout')
    (by rw [hv.2]; norm_num [NUMBER_OF_FRAMES])
    (by rw [hv.1]; decide)

/-- C5: whenever at least 8 of the 30 sampled frames failed the
detector, `analyze` aborts and returns `none`, regardless of the values
of the successful frames. -/
theorem analyze_fail_gate_aborts (cap : ℕ → Option Frame) (f0 : Frame) (out : LoopOut)
    (h0 : cap 0 = some f0)
    (hloop : runLoop cap (boundsFor f0).1 (boundsFor f0).2 = some out)
    (hfail : 8 ≤ out.failed) :
    analyze cap = none := by
  have hgt : (out.failed : ℚ) > (NUMBER_OF_FRAMES : ℚ) / 4 := by
    have h8 : (8 : ℚ) ≤ (out.failed : ℚ) := by exact_mod_cast hfail
    have h30 : (NUMBER_OF_FRAMES : ℚ) / 4 < 8 := by norm_num [NUMBER_OF_FRAMES]
    linarith
  rw [analyze_eq cap f0 out h0 hloop, if_pos hgt]

/-- C5, witness: all 30 sampled frames show the non-contiguous pattern
with only the second LED green, so all 30 fail the detector and the run
aborts. -/
theorem analyze_fail_gate_aborts_wit : analyze capAllGap = none := by
  have h0 : capAllGap 0 = some gapFrame := rfl
  obtain ⟨out, hout⟩ := Option.isSome_iff_exists.mp
    (runLoopAux_isSome capAllGap DARK_LOWER_GREEN DARK_UPPER_GREEN
      NUMBER_OF_FRAMES 0 (fun k _ => rfl))
  have hout' : runLoop capAllGap DARK_LOWER_GREEN DARK_UPPER_GREEN = some out := hout
  exact analyze_fail_gate_aborts capAllGap gapFrame out h0
    (by rw [boundsFor_gapFrame]; exact hout')
    (by rw [(capAllGap_out out hout').2]; omega)

/-- C8: a run that passes the failure gate has at least one successful
frame, so the frequency tally is non-empty and `most_common 2` of it is
non-empty — the "frequency tally empty" abort branch is unreachable. -/
theorem passed_gate_tally_nonempty (cap : ℕ → Option Frame) (lower upper : HSV)
    (out : LoopOut)
    (hloop : runLoop cap lower upper = some out)
    (hgate : ¬ ((out.failed : ℚ) > (NUMBER_OF_FRAMES : ℚ) / 4)) :
    out.values ≠ [] ∧ most_common 2 (tally out.values) ≠ [] := by
  have hne := values_ne_nil_of_gate cap lower upper out hloop hgate
  exact ⟨hne, most_common_two_ne_nil _ (tally_ne_nil _ hne)⟩

/-- C8, witness: the all-black run passes the gate with zero failures
and its tally feeds a non-empty `most_common 2`. -/
theorem passed_gate_tally_nonempty_wit :
    most_common 2 (tally (List.replicate 30 0)) ≠ [] := by
  obtain ⟨out, hout⟩ := Option.isSome_iff_exists.mp
    (runLoopAux_isSome capAllBlack DARK_LOWER_GREEN DARK_UPPER_GREEN
      NUMBER_OF_FRAMES 0 (fun k _ => rfl))
  have hout' : runLoop capAllBlack DARK_LOWER_GREEN DARK_UPPER_GREEN = some out := hout
  have hv := capAllBlack_out out hout'
  have h := (passed_gate_tally_nonempty capAllBlack DARK_LOWER_GREEN DARK_UPPER_GREEN out
    hout' (by rw [hv.2]; norm_num [NUMBER_OF_FRAMES])).2
  rw [hv.1] at h
  exact h

/-- C9, amended: in a completed sampling loop the trace is, iteration by
iteration, a capture followed by the 0.2 s sleep exactly when the
detector succeeded on the captured frame and the iteration is not the
last one; after a detector-FAILURE iteration the `continue` skips the
sleep, so consecutive captures around a failed frame are not separated
by the delay. -/
theorem loop_trace_spec (cap : ℕ → Option Frame) (lower upper : HSV) (out : LoopOut)
    (hloop : runLoop cap lower upper = some out) :
    out.events = (List.range' 0 NUMBER_OF_FRAMES).flatMap (iterTrace cap lower upper) :=
  (runLoopAux_spec cap lower upper NUMBER_OF_FRAMES 0 out hloop).2.2.2

/-- C9, witness: the trace equation at the all-black run. -/
theorem loop_trace_spec_wit :
    (runLoop capAllBlack DARK_LOWER_GREEN DARK_UPPER_GREEN).map LoopOut.events =
      some ((List.range' 0 NUMBER_OF_FRAMES).flatMap
        (iterTrace capAllBlack DARK_LOWER_GREEN DARK_UPPER_GREEN)) := by
  obtain ⟨out, hout⟩ := Option.isSome_iff_exists.mp
    (runLoopAux_isSome capAllBlack DARK_LOWER_GREEN DARK_UPPER_GREEN
      NUMBER_OF_FRAMES 0 (fun k _ => rfl))
  have hout' : runLoop capAllBlack DARK_LOWER_GREEN DARK_UPPER_GREEN = some out := hout
  rw [hout', Option.map_some', loop_trace_spec capAllBlack _ _ out hout']

/-- C9, counterexample: in the run whose 30 sampled frames all show the
non-contiguous one-LED-with-a-gap pattern, the detector fails on every
frame and the trace is 30 consecutive captures with not a single sleep
event between them, although 29 of those iterations are not the last
one — refuting the claim that the delay also follows FAILURE
iterations. -/
theorem loop_sleep_skipped_cex :
    (runLoop capAllGap DARK_LOWER_GREEN DARK_UPPER_GREEN).map LoopOut.events =
      some ((List.range' 1 NUMBER_OF_FRAMES).map Event.capture) ∧
    (runLoop capAllGap DARK_LOWER_GREEN DARK_UPPER_GREEN).map LoopOut.failed =
      some NUMBER_OF_FRAMES := by
  obtain ⟨out, hout⟩ := Option.isSome_iff_exists.mp
    (runLoopAux_isSome capAllGap DARK_LOWER_GREEN DARK_UPPER_GREEN
      NUMBER_OF_FRAMES 0 (fun k _ => rfl))
  have hout' : runLoop capAllGap DARK_LOWER_GREEN DARK_UPPER_GREEN = some out := hout
  have hspec := runLoopAux_spec capAllGap _ _ NUMBER_OF_FRAMES 0 out hout'
  constructor
  · rw [hout', Option.map_some', hspec.2.2.2,
      flatMap_pointwise _ (iterTrace capAllGap DARK_LOWER_GREEN DARK_UPPER_GREEN)
        (fun i => [Event.capture (i + 1)])
        (by intro i _; simp [iterTrace, capAllGap, det_gapFrame_dark])]
    decide
  · rw [hout', Option.map_some', (capAllGap_out out hout').2]
    rfl

/-- C10: whenever `analyze` returns a status, its `frames` list has
exactly 30 entries, the i-th entry holding the frame of read `i + 1`
with `light_value` the detected count on success and the ERROR marker
on detector failure. -/
theorem analyze_frames_complete (cap : ℕ → Option Frame) (s : BoilerStatus)
    (h : analyze cap = some s) :
    s.frames.length = NUMBER_OF_FRAMES ∧
    ∃ f0, cap 0 = some f0 ∧
      ∀ i, i < NUMBER_OF_FRAMES → ∃ f, cap (i + 1) = some f ∧
        s.frames[i]? = some (mkStoredFrame f
          (determine_number_of_lights_in_frame f (boundsFor f0).1 (boundsFor f0).2)) := by
  obtain ⟨f0, out, verdict, h0, hloop, hgate, hres, rfl⟩ := analyze_some_inv cap s h
  refine ⟨?_, f0, h0, ?_⟩
  · exact (runLoopAux_counts cap (boundsFor f0).1 (boundsFor f0).2
      NUMBER_OF_FRAMES 0 out hloop).2
  · intro i hi
    obtain ⟨f, hf, hfr⟩ := runLoopAux_frames cap (boundsFor f0).1 (boundsFor f0).2
      NUMBER_OF_FRAMES 0 out hloop i hi
    exact ⟨f, by simpa [show 0 + 1 + i = i + 1 by omega] using hf, hfr⟩

/-- C10, witness: the all-black run returns a status whose frames list
has exactly 30 entries. -/
theorem analyze_frames_complete_wit :
    ((analyze capAllBlack).map BoilerStatus.frames).map List.length =
      some NUMBER_OF_FRAMES := by
  have h0 : capAllBlack 0 = some blackFrame := rfl
  obtain ⟨out, hout⟩ := Option.isSome_iff_exists.mp
    (runLoopAux_isSome capAllBlack DARK_LOWER_GREEN DARK_UPPER_GREEN
      NUMBER_OF_FRAMES 0 (fun k _ => rfl))
  have hout' : runLoop capAllBlack DARK_LOWER_GREEN DARK_UPPER_GREEN = some out := hout
  have hv := capAllBlack_out out hout'
  have hloop : runLoop capAllBlack (boundsFor blackFrame).1 (boundsFor blackFrame).2 =
      some out := by
    rw [boundsFor_blackFrame]; exact hout'
  have hana : analyze capAllBlack = some (finishStatus (determine_general_light blackFrame)
      (boundsFor blackFrame) out (false, 0)) := by
    rw [analyze_eq capAllBlack blackFrame out h0 hloop,
      if_neg (by rw [hv.2]; norm_num [NUMBER_OF_FRAMES]),
      show resolveVerdict out.values = some (false, 0) from by rw [hv.1]; decide]
  have hlen := (analyze_frames_complete capAllBlack _ hana).1
  rw [hana]
  simp [hlen]
